import Mathlib

/-!
Shallow embedding of the data-quality rule engine in `run_part2_etl`
(the Izzah version of `etl.py`): the per-entity validation rules, the
exception records they emit, the Performance discard set, and the
cleaning step `perf.drop(index=sorted(discard_idx)).reset_index(drop=True)`.

Cell values as delivered by `pandas.read_sql` are modelled by the
inductive type `Value`: the Python `None`, the float `NaN`, integers,
finite floats (as exact rationals), and strings.  The Python coercions
`int(v)`, `float(v)` and `str(v)` used by the rules are modelled by
`pyInt`, `pyFloat` and `pyStr`; a coercion that raises in Python returns
`Option.none` here.  String-to-number parsing covers plain decimal
literals with optional sign and decimal point, plus the special tokens
nan and inf accepted by Python `float`; exotic literal forms such as
exponents, underscores or hexadecimal are outside the model.
-/

namespace Etl

/-- One cell value of a loaded table. -/
inductive Value where
  | none
  | nan
  | int (n : Int)
  | float (q : ℚ)
  | str (s : String)
deriving DecidableEq

/-- Model of `pd.isna` on a scalar: true exactly on `None` and float `NaN`. -/
def pdIsna : Value → Bool
  | Value.none => true
  | Value.nan => true
  | _ => false

/-- Decimal rendering of a finite float; for an integral value Python prints
a trailing `.0`.  (For non-integral values Python prints the shortest
round-tripping decimal; the exact digits are irrelevant to the rules, which
only test trimmed-emptiness and set membership of the rendered string.) -/
def ratStr (q : ℚ) : String :=
  if q.den = 1 then toString q.num ++ ".0" else toString q.num ++ "/" ++ toString q.den

/-- Model of Python `str(v)`. -/
def pyStr : Value → String
  | Value.none => "None"
  | Value.nan => "nan"
  | Value.int n => toString n
  | Value.float q => ratStr q
  | Value.str s => s

/-- Whitespace trimming on the character level, as Python `str.strip()`
with no arguments removes leading and trailing whitespace. -/
def trimChars (cs : List Char) : List Char :=
  ((cs.dropWhile Char.isWhitespace).reverse.dropWhile Char.isWhitespace).reverse

/-- Model of Python `s.strip()`. -/
def pyStrip (s : String) : String :=
  String.mk (trimChars s.toList)

/-- ASCII lower-casing of one character. -/
def lowerChar (c : Char) : Char :=
  if 65 ≤ c.toNat ∧ c.toNat ≤ 90 then Char.ofNat (c.toNat + 32) else c

/-- Splitting a character list at every occurrence of a separator. -/
def splitOnChar (sep : Char) : List Char → List (List Char)
  | [] => [[]]
  | c :: rest =>
      match splitOnChar sep rest with
      | [] => [[]]
      | s :: ss => if c = sep then [] :: s :: ss else (c :: s) :: ss

/-- True when the character list is a nonempty run of decimal digits. -/
def isDigits (cs : List Char) : Bool :=
  !cs.isEmpty && cs.all Char.isDigit

/-- Numeric value of a run of decimal digits. -/
def digitsToNat (cs : List Char) : Nat :=
  cs.foldl (fun a c => a * 10 + (c.toNat - 48)) 0

/-- Strip one optional leading sign, returning the sign and the rest. -/
def parseSign : List Char → Int × List Char
  | '-' :: rest => (-1, rest)
  | '+' :: rest => (1, rest)
  | cs => (1, cs)

/-- Model of Python `int(s)` on a string: optional sign then digits, with
surrounding whitespace allowed.  Anything else raises, i.e. gives none. -/
def pyIntOfString (s : String) : Option Int :=
  let t := parseSign (trimChars s.toList)
  if isDigits t.2 then some (t.1 * (digitsToNat t.2 : Int)) else Option.none

/-- Result of a Python `float(...)` conversion: a finite value, `NaN`,
or one of the infinities. -/
inductive FloatVal where
  | fin (q : ℚ)
  | nan
  | inf
  | negInf
deriving DecidableEq

/-- Model of Python `float(s)` on a string: optional sign, then either the
tokens nan, inf, infinity (case-insensitive) or a decimal literal
`digits`, `digits.digits`, `digits.` or `.digits`. -/
def pyFloatOfString (s : String) : Option FloatVal :=
  let t := parseSign (trimChars s.toList)
  let body := t.2.map lowerChar
  if body = ['n', 'a', 'n'] then some FloatVal.nan
  else if body = ['i', 'n', 'f'] ∨ body = ['i', 'n', 'f', 'i', 'n', 'i', 't', 'y'] then
    some (if t.1 = 1 then FloatVal.inf else FloatVal.negInf)
  else
    match splitOnChar '.' t.2 with
    | [a] =>
        if isDigits a then some (FloatVal.fin (t.1 * (digitsToNat a : ℚ)))
        else Option.none
    | [a, b] =>
        if a.all Char.isDigit && b.all Char.isDigit && !(a.isEmpty && b.isEmpty) then
          some (FloatVal.fin (t.1 * ((digitsToNat a : ℚ)
            + (digitsToNat b : ℚ) / (10 : ℚ) ^ b.length)))
        else Option.none
    | _ => Option.none

/-- Truncation toward zero, as Python `int` applied to a float. -/
def ratTrunc (q : ℚ) : Int :=
  if 0 ≤ q then q.floor else q.ceil

/-- Model of Python `int(v)`: fails on `None` and `NaN`, truncates floats
toward zero, parses integer literals from strings. -/
def pyInt : Value → Option Int
  | Value.none => Option.none
  | Value.nan => Option.none
  | Value.int n => some n
  | Value.float q => some (ratTrunc q)
  | Value.str s => pyIntOfString s

/-- Model of Python `float(v)`: fails on `None`, keeps `NaN`, embeds
integers and floats, parses numeric literals from strings. -/
def pyFloat : Value → Option FloatVal
  | Value.none => Option.none
  | Value.nan => some FloatVal.nan
  | Value.int n => some (FloatVal.fin n)
  | Value.float q => some (FloatVal.fin q)
  | Value.str s => pyFloatOfString s

/-- The chained comparison `0 <= f <= 100` on a float result: false on
`NaN` and both infinities. -/
def inRange0to100 : FloatVal → Bool
  | FloatVal.fin q => decide (0 ≤ q ∧ q ≤ 100)
  | _ => false

/-- Model of `isinstance(v, float)`: float `NaN` and finite floats. -/
def isPyFloat : Value → Bool
  | Value.nan => true
  | Value.float _ => true
  | _ => false

/-- Model of `float(v).is_integer()` for the values on which the code
evaluates it (only reached when `isinstance(v, float)` holds). -/
def floatIsInteger : Value → Bool
  | Value.float q => decide (q.den = 1)
  | Value.nan => false
  | _ => true

/-- A loaded table: named columns and positionally indexed rows, the row
index being the default pandas RangeIndex 0,1,2,... assigned by
`read_sql`.  Every row is expected to carry one value per column. -/
structure DataFrame where
  columns : List String
  rows : List (List Value)
deriving DecidableEq

/-- Model of `df.empty`: some axis has length 0. -/
def dfEmpty (df : DataFrame) : Bool :=
  df.rows.isEmpty || df.columns.isEmpty

/-- Column selection `df[c]` as the list of the column values in row
order; used only under a `c in df.columns` guard, as in the code. -/
def getCol (df : DataFrame) (c : String) : List Value :=
  match df.columns.indexOf? c with
  | some i => df.rows.map (fun row => row.getD i Value.none)
  | Option.none => []

/-- One exception record, as appended to the per-entity exception list. -/
structure Exc where
  row_index : Nat
  column : String
  issue_type : String
  details : String
deriving DecidableEq

/-- Missing-value exceptions contributed by one row of the Department
table; the `isna` matrix is traversed row-major. -/
def rowMissingExcs (cols : List String) (r : Nat) (row : List Value) : List Exc :=
  cols.enum.filterMap (fun p =>
    if pdIsna (row.getD p.1 Value.none) then
      some { row_index := r, column := p.2, issue_type := "Missing", details := "null value" }
    else Option.none)

/-- The null-value scan over the whole Department table. -/
def deptMissingExc (dept : DataFrame) : List Exc :=
  dept.rows.enum.flatMap (fun p => rowMissingExcs dept.columns p.1 p.2)

/-- Indexed entries of a column whose value occurs in at least two rows,
as flagged by `duplicated(keep=False)`. -/
def dupIdx (xs : List Value) : List (Nat × Value) :=
  xs.enum.filter (fun p => 2 ≤ xs.count p.2)

/-- Duplicate-key exceptions on `Department_ID`, skipped when the column
is absent. -/
def deptDupKeyExc (dept : DataFrame) : List Exc :=
  if dept.columns.contains "Department_ID" then
    (dupIdx (getCol dept "Department_ID")).map (fun p =>
      { row_index := p.1, column := "Department_ID", issue_type := "Duplicate Key",
        details := "Department_ID=" ++ pyStr p.2 })
  else []

/-- Duplicate-value exceptions on `Department_Name`, skipped when the
column is absent. -/
def deptDupNameExc (dept : DataFrame) : List Exc :=
  if dept.columns.contains "Department_Name" then
    (dupIdx (getCol dept "Department_Name")).map (fun p =>
      { row_index := p.1, column := "Department_Name", issue_type := "Duplicate Value",
        details := "Department_Name=" ++ pyStr p.2 })
  else []

/-- The `DOE` rule on one value: the test `pd.isna(v) or int(v) < 1900`
short-circuits, so a null never reaches the conversion; only a raising
conversion on a non-null value lands in the except branch. -/
def doeExcAt (r : Nat) (v : Value) : Option Exc :=
  if pdIsna v then
    some { row_index := r, column := "DOE", issue_type := "Out-of-Range",
           details := "DOE=" ++ pyStr v ++ " (must be >=1900)" }
  else
    match pyInt v with
    | some n =>
        if n < 1900 then
          some { row_index := r, column := "DOE", issue_type := "Out-of-Range",
                 details := "DOE=" ++ pyStr v ++ " (must be >=1900)" }
        else Option.none
    | Option.none =>
        some { row_index := r, column := "DOE", issue_type := "Invalid Type",
               details := "DOE=" ++ pyStr v ++ " (not integer)" }

/-- The `DOE` scan over the Department table, skipped when the column is
absent. -/
def deptDoeExc (dept : DataFrame) : List Exc :=
  if dept.columns.contains "DOE" then
    (getCol dept "DOE").enum.filterMap (fun p => doeExcAt p.1 p.2)
  else []

/-- The full Department exception report, in the order the code appends. -/
def deptExceptions (dept : DataFrame) : List Exc :=
  if dfEmpty dept then [] else
    deptMissingExc dept ++ deptDupKeyExc dept ++ deptDupNameExc dept ++ deptDoeExc dept

/-- The reference key set `set(dept.Department_ID.dropna().astype(str))`,
kept as a list here since the rules use it only through membership and
nonemptiness. -/
def deptIds (dept : DataFrame) : List String :=
  if dept.columns.contains "Department_ID" then
    ((getCol dept "Department_ID").filter (fun v => !pdIsna v)).map pyStr
  else []

/-- Missing check on `Department_Admission`: null, or trims to empty. -/
def studMissingExc (stud : DataFrame) : List Exc :=
  (getCol stud "Department_Admission").enum.filterMap (fun p =>
    if pdIsna p.2 || pyStrip (pyStr p.2) == "" then
      some { row_index := p.1, column := "Department_Admission", issue_type := "Missing",
             details := "Department_Admission is required" }
    else Option.none)

/-- Foreign-key check on `Department_Admission`: fires when the trimmed
string is nonempty, the key set is nonempty, and the value is absent. -/
def studFkExc (stud dept : DataFrame) : List Exc :=
  (getCol stud "Department_Admission").enum.filterMap (fun p =>
    let s := pyStrip (pyStr p.2)
    if s ≠ "" ∧ deptIds dept ≠ [] ∧ s ∉ deptIds dept then
      some { row_index := p.1, column := "Department_Admission", issue_type := "FK Violation",
             details := "Department_Admission=" ++ s
               ++ " not in Department_Information.Department_ID" }
    else Option.none)

/-- The full Counseling exception report. -/
def studExceptions (stud dept : DataFrame) : List Exc :=
  if !dfEmpty stud && stud.columns.contains "Department_Admission" then
    studMissingExc stud ++ studFkExc stud dept
  else []

/-- Row indices with at least one null value, `perf.isna().any(axis=1)`. -/
def perfMissRows (perf : DataFrame) : List Nat :=
  (perf.rows.enum.filter (fun p => p.2.any pdIsna)).map Prod.fst

/-- The row-level Missing exceptions for the Performance table. -/
def perfMissingExc (perf : DataFrame) : List Exc :=
  (perfMissRows perf).map (fun r =>
    { row_index := r, column := "(row)", issue_type := "Missing",
      details := "Missing values in row" })

/-- The `Marks` rule on one value: a failing `float` conversion gives
Invalid Type, a converted value outside the chained comparison gives
Out-of-Range. -/
def marksExcAt (r : Nat) (v : Value) : Option Exc :=
  match pyFloat v with
  | some f =>
      if inRange0to100 f then Option.none
      else some { row_index := r, column := "Marks", issue_type := "Out-of-Range",
                  details := "Marks=" ++ pyStr v ++ " not in [0,100]" }
  | Option.none =>
      some { row_index := r, column := "Marks", issue_type := "Invalid Type",
             details := "Marks=" ++ pyStr v ++ " not numeric" }

/-- The `Marks` scan, skipped when the column is absent. -/
def perfMarksExc (perf : DataFrame) : List Exc :=
  if perf.columns.contains "Marks" then
    (getCol perf "Marks").enum.filterMap (fun p => marksExcAt p.1 p.2)
  else []

/-- The `Effort_Hours` rule on one value: a failing `int` conversion
gives Invalid Type; a negative result, or a float with a fractional
part, gives Out-of-Range. -/
def ehExcAt (r : Nat) (v : Value) : Option Exc :=
  match pyInt v with
  | some i =>
      if i < 0 ∨ (isPyFloat v = true ∧ floatIsInteger v = false) then
        some { row_index := r, column := "Effort_Hours", issue_type := "Out-of-Range",
               details := "Effort_Hours=" ++ pyStr v ++ " must be integer >= 0" }
      else Option.none
  | Option.none =>
      some { row_index := r, column := "Effort_Hours", issue_type := "Invalid Type",
             details := "Effort_Hours=" ++ pyStr v ++ " not integer" }

/-- The `Effort_Hours` scan, skipped when the column is absent. -/
def perfEhExc (perf : DataFrame) : List Exc :=
  if perf.columns.contains "Effort_Hours" then
    (getCol perf "Effort_Hours").enum.filterMap (fun p => ehExcAt p.1 p.2)
  else []

/-- The `(Student_ID, Paper_ID)` pairs in row order. -/
def perfPairs (perf : DataFrame) : List (Value × Value) :=
  (getCol perf "Student_ID").zip (getCol perf "Paper_ID")

/-- Duplicate-pair exceptions, flagged for every row whose pair occurs
at least twice; skipped unless both columns are present.  This rule
appends exceptions only and never touches the discard set. -/
def perfDupPairExc (perf : DataFrame) : List Exc :=
  if perf.columns.contains "Student_ID" && perf.columns.contains "Paper_ID" then
    ((perfPairs perf).enum.filter (fun p => 2 ≤ (perfPairs perf).count p.2)).map (fun p =>
      { row_index := p.1, column := "Student_ID,Paper_ID", issue_type := "Duplicate Pair",
        details := "(" ++ pyStr p.2.1 ++ ", " ++ pyStr p.2.2 ++ ") appears more than once" })
  else []

/-- The full Performance exception report, in the order the code appends. -/
def perfExceptions (perf : DataFrame) : List Exc :=
  if dfEmpty perf then [] else
    perfMissingExc perf ++ perfMarksExc perf ++ perfEhExc perf ++ perfDupPairExc perf

/-- Discard contribution of the `Marks` rule: exactly the flagged rows. -/
def perfMarksDiscard (perf : DataFrame) : List Nat :=
  (perfMarksExc perf).map Exc.row_index

/-- Discard contribution of the `Effort_Hours` rule. -/
def perfEhDiscard (perf : DataFrame) : List Nat :=
  (perfEhExc perf).map Exc.row_index

/-- The accumulated `discard_idx` set: row-level missing rows plus the
rows flagged by the `Marks` and `Effort_Hours` rules. -/
def perfDiscard (perf : DataFrame) : Finset ℕ :=
  if dfEmpty perf then ∅ else
    (perfMissRows perf).toFinset ∪ (perfMarksDiscard perf).toFinset
      ∪ (perfEhDiscard perf).toFinset

/-- The list `sorted(discard_idx)` handed to `drop`: the distinct
discarded indices in ascending order. -/
def perfDiscardSorted (perf : DataFrame) : List ℕ :=
  if dfEmpty perf then [] else
    ((perfMissRows perf ++ perfMarksDiscard perf ++ perfEhDiscard perf).dedup).insertionSort
      (fun a b => a ≤ b)

/-- Model of `df.drop(index=labels).reset_index(drop=True)`: remove the
rows whose original index is listed, keep the rest in order under a
fresh contiguous index. -/
def dropRows (df : DataFrame) (labels : List ℕ) : DataFrame :=
  { columns := df.columns
    rows := (df.rows.enum.filter (fun p => !(labels.contains p.1))).map Prod.snd }

/-- The cleaned Performance table,
`perf.drop(index=sorted(discard_idx)).reset_index(drop=True)`. -/
def perfClean (perf : DataFrame) : DataFrame :=
  dropRows perf (perfDiscardSorted perf)

/-! Concrete tables used to instantiate the hypotheses of the theorems
below on closed inputs. -/

/-- A Department table whose only `DOE` value is null. -/
def deptDoeNull : DataFrame := ⟨["DOE"], [[Value.none]]⟩

/-- A Department table with keys 1, 2, 3. -/
def deptKeys123 : DataFrame :=
  ⟨["Department_ID"], [[Value.int 1], [Value.int 2], [Value.int 3]]⟩

/-- A Department table whose single key is the literal string nan. -/
def deptKeyNanStr : DataFrame := ⟨["Department_ID"], [[Value.str "nan"]]⟩

/-- A Department table with one non-null `DOE` value that does not
convert to an integer. -/
def deptDoeAbc : DataFrame := ⟨["DOE"], [[Value.str "abc"], [Value.int 1850]]⟩

/-- A Counseling table whose `Department_Admission` is the empty string. -/
def studEmptyAdm : DataFrame :=
  ⟨["Student_ID", "Department_Admission"], [[Value.int 7, Value.str ""]]⟩

/-- A Counseling table whose `Department_Admission` is the float `NaN`. -/
def studNanAdm : DataFrame :=
  ⟨["Student_ID", "Department_Admission"], [[Value.int 7, Value.nan]]⟩

/-- A Performance table whose only violation is one duplicated
`(Student_ID, Paper_ID)` pair. -/
def perfDupOnly : DataFrame :=
  ⟨["Student_ID", "Paper_ID", "Marks", "Effort_Hours"],
    [[Value.int 5, Value.int 9, Value.int 50, Value.int 3],
     [Value.int 5, Value.int 9, Value.int 60, Value.int 4]]⟩

/-- A Performance table with three disqualifying rows (Marks 150, Marks
abc, negative Effort_Hours) and one valid row. -/
def perfMixed : DataFrame :=
  ⟨["Student_ID", "Paper_ID", "Marks", "Effort_Hours"],
    [[Value.int 5, Value.int 9, Value.int 150, Value.int 3],
     [Value.int 6, Value.int 9, Value.str "abc", Value.int 3],
     [Value.int 7, Value.int 9, Value.int 50, Value.int (-1)],
     [Value.int 8, Value.int 9, Value.int 50, Value.int 3]]⟩

/-- A Performance table whose `Marks` value is the float `NaN`. -/
def perfMarksNan : DataFrame :=
  ⟨["Student_ID", "Paper_ID", "Marks", "Effort_Hours"],
    [[Value.int 5, Value.int 9, Value.nan, Value.int 3]]⟩

/-- A Performance table missing the `Marks`, `Effort_Hours` and
`Paper_ID` columns, with a value that would violate every skipped rule. -/
def perfNoCols : DataFrame :=
  ⟨["Student_ID", "Score"], [[Value.int 5, Value.int 150], [Value.int 5, Value.int 150]]⟩

/-- A Department table missing the `DOE`, `Department_ID` and
`Department_Name` columns, with duplicated and out-of-range values. -/
def deptNoCols : DataFrame :=
  ⟨["Dept", "Year"], [[Value.str "CS", Value.int 1850], [Value.str "CS", Value.int 1850]]⟩

/-- A Counseling table missing the `Department_Admission` column. -/
def studNoAdm : DataFrame := ⟨["Student_ID"], [[Value.int 1]]⟩

/-! Helper lemmas about list enumeration, column access and the shape of
the exception records each rule can emit. -/

lemma mem_enum_fst_lt {α : Type} {l : List α} {p : ℕ × α} (h : p ∈ l.enum) :
    p.1 < l.length := by
  rcases List.getElem?_eq_some_iff.mp (List.mem_enum_iff_getElem?.mp h) with ⟨hlt, _⟩
  exact hlt

lemma enum_fst_inj {α : Type} {l : List α} {r : ℕ} {a b : α}
    (ha : (r, a) ∈ l.enum) (hb : (r, b) ∈ l.enum) : a = b := by
  have ha' := List.mem_enum_iff_getElem?.mp ha
  have hb' := List.mem_enum_iff_getElem?.mp hb
  simp only at ha' hb'
  rw [ha'] at hb'
  exact Option.some.inj hb'

lemma mem_enum_map {α β : Type} {l : List α} {r : ℕ} {a : α} (f : α → β)
    (h : (r, a) ∈ l.enum) : (r, f a) ∈ (l.map f).enum := by
  rw [List.mem_enum_iff_getElem?] at h ⊢
  simp only [List.getElem?_map, h, Option.map_some']

lemma getCol_eq {df : DataFrame} {c : String} {i : ℕ}
    (h : df.columns.indexOf? c = some i) :
    getCol df c = df.rows.map (fun row => row.getD i Value.none) := by
  simp [getCol, h]

lemma getCol_length_le (df : DataFrame) (c : String) :
    (getCol df c).length ≤ df.rows.length := by
  unfold getCol
  cases df.columns.indexOf? c <;> simp

lemma exists_indexOf?_of_mem {l : List String} {c : String} (h : c ∈ l) :
    ∃ i, l.indexOf? c = some i := by
  induction l with
  | nil => simp at h
  | cons x xs ih =>
      rw [List.indexOf?_cons]
      by_cases hx : (x == c) = true
      · exact ⟨0, by simp [hx]⟩
      · have hm : c ∈ xs := by
          rcases List.mem_cons.mp h with h1 | h1
          · exact absurd (by simp [h1]) hx
          · exact h1
        rcases ih hm with ⟨i, hi⟩
        exact ⟨i + 1, by simp [hx, hi]⟩

lemma dfEmpty_false_of {df : DataFrame} (hr : df.rows ≠ []) (hc : df.columns ≠ []) :
    dfEmpty df = false := by
  simp [dfEmpty, hr, hc]

lemma marksExcAt_some {r : ℕ} {v : Value} {e : Exc} (h : marksExcAt r v = some e) :
    e.row_index = r ∧ e.column = "Marks" ∧
      (e.issue_type = "Out-of-Range" ∨ e.issue_type = "Invalid Type") := by
  unfold marksExcAt at h
  rcases hf : pyFloat v with _ | f <;> rw [hf] at h
  · cases h
    exact ⟨rfl, rfl, Or.inr rfl⟩
  · by_cases hr : inRange0to100 f = true <;> simp [hr] at h
    cases h
    exact ⟨rfl, rfl, Or.inl rfl⟩

lemma marksExcAt_none {r : ℕ} {v : Value} (h : marksExcAt r v = Option.none) :
    ∃ q, pyFloat v = some (FloatVal.fin q) ∧ 0 ≤ q ∧ q ≤ 100 := by
  unfold marksExcAt at h
  rcases hf : pyFloat v with _ | f <;> rw [hf] at h
  · cases h
  · by_cases hr : inRange0to100 f = true
    · rcases f with q | _ | _ | _ <;> simp [inRange0to100] at hr
      exact ⟨q, rfl, hr.1, hr.2⟩
    · simp [hr] at h

lemma ehExcAt_some {r : ℕ} {v : Value} {e : Exc} (h : ehExcAt r v = some e) :
    e.row_index = r ∧ e.column = "Effort_Hours" ∧
      (e.issue_type = "Out-of-Range" ∨ e.issue_type = "Invalid Type") := by
  unfold ehExcAt at h
  rcases hf : pyInt v with _ | i <;> rw [hf] at h
  · cases h
    exact ⟨rfl, rfl, Or.inr rfl⟩
  · by_cases hc : i < 0 ∨ (isPyFloat v = true ∧ floatIsInteger v = false)
    · simp only [hc, if_true] at h
      cases h
      exact ⟨rfl, rfl, Or.inl rfl⟩
    · simp only [hc, if_false] at h
      cases h

lemma ehExcAt_none {r : ℕ} {v : Value} (h : ehExcAt r v = Option.none) :
    ∃ i, pyInt v = some i ∧ 0 ≤ i ∧ (isPyFloat v = true → floatIsInteger v = true) := by
  unfold ehExcAt at h
  rcases hf : pyInt v with _ | i <;> rw [hf] at h
  · cases h
  · by_cases hc : i < 0 ∨ (isPyFloat v = true ∧ floatIsInteger v = false)
    · simp only [hc, if_true] at h
      cases h
    · push_neg at hc
      refine ⟨i, rfl, hc.1, fun hfl => ?_⟩
      rcases hfi : floatIsInteger v with _ | _
      · exact absurd hfi (hc.2 hfl)
      · rfl

lemma doeExcAt_shape {r : ℕ} {v : Value} {e : Exc} (h : doeExcAt r v = some e) :
    e.row_index = r ∧ e.column = "DOE" ∧
      (e.issue_type = "Out-of-Range" ∨ e.issue_type = "Invalid Type") := by
  unfold doeExcAt at h
  by_cases hna : pdIsna v = true
  · rw [if_pos hna] at h
    cases h
    exact ⟨rfl, rfl, Or.inl rfl⟩
  · rw [if_neg hna] at h
    rcases hi : pyInt v with _ | n <;> rw [hi] at h
    · cases h
      exact ⟨rfl, rfl, Or.inr rfl⟩
    · by_cases hn : n < 1900 <;> simp [hn] at h
      cases h
      exact ⟨rfl, rfl, Or.inl rfl⟩

lemma dfEmpty_false_of_enum {df : DataFrame} {c : String} {r : ℕ} {v : Value}
    (hc : c ∈ df.columns) (hm : (r, v) ∈ (getCol df c).enum) : dfEmpty df = false := by
  refine dfEmpty_false_of ?_ (List.ne_nil_of_mem hc)
  have hr : r < df.rows.length :=
    lt_of_lt_of_le (mem_enum_fst_lt hm) (getCol_length_le df c)
  exact List.length_pos.mp (Nat.pos_of_ne_zero (fun h0 => by omega))

lemma mem_deptExceptions_iff {dept : DataFrame} {e : Exc} :
    e ∈ deptExceptions dept ↔ dfEmpty dept = false ∧
      (e ∈ deptMissingExc dept ∨ e ∈ deptDupKeyExc dept ∨
        e ∈ deptDupNameExc dept ∨ e ∈ deptDoeExc dept) := by
  unfold deptExceptions
  rcases hde : dfEmpty dept with _ | _
  · simp [List.mem_append, or_assoc]
  · simp

lemma deptMissingExc_shape {dept : DataFrame} {e : Exc} (h : e ∈ deptMissingExc dept) :
    e.issue_type = "Missing" ∧ e.column ∈ dept.columns := by
  rcases List.mem_flatMap.mp h with ⟨p, _, hpe⟩
  rcases List.mem_filterMap.mp hpe with ⟨q, hq, hqe⟩
  by_cases hna : pdIsna (p.2.getD q.1 Value.none) = true
  · rw [if_pos hna] at hqe
    cases hqe
    refine ⟨rfl, ?_⟩
    have := List.mem_enum_iff_getElem?.mp hq
    exact List.getElem?_mem this
  · rw [if_neg hna] at hqe
    cases hqe

lemma deptDupKeyExc_shape {dept : DataFrame} {e : Exc} (h : e ∈ deptDupKeyExc dept) :
    e.column = "Department_ID" ∧ e.issue_type = "Duplicate Key" := by
  unfold deptDupKeyExc at h
  by_cases hcb : dept.columns.contains "Department_ID" = true
  · rw [if_pos hcb] at h
    rcases List.mem_map.mp h with ⟨p, _, he⟩
    cases he
    exact ⟨rfl, rfl⟩
  · rw [if_neg hcb] at h
    cases h

lemma deptDupNameExc_shape {dept : DataFrame} {e : Exc} (h : e ∈ deptDupNameExc dept) :
    e.column = "Department_Name" ∧ e.issue_type = "Duplicate Value" := by
  unfold deptDupNameExc at h
  by_cases hcb : dept.columns.contains "Department_Name" = true
  · rw [if_pos hcb] at h
    rcases List.mem_map.mp h with ⟨p, _, he⟩
    cases he
    exact ⟨rfl, rfl⟩
  · rw [if_neg hcb] at h
    cases h

lemma deptDoeExc_shape {dept : DataFrame} {e : Exc} (h : e ∈ deptDoeExc dept) :
    e.column = "DOE" ∧
      (e.issue_type = "Out-of-Range" ∨ e.issue_type = "Invalid Type") := by
  unfold deptDoeExc at h
  by_cases hcb : dept.columns.contains "DOE" = true
  · rw [if_pos hcb] at h
    rcases List.mem_filterMap.mp h with ⟨p, _, hpe⟩
    exact (doeExcAt_shape hpe).2
  · rw [if_neg hcb] at h
    cases h

lemma mem_deptDoeExc_of {dept : DataFrame} {r : ℕ} {v : Value} {e : Exc}
    (hc : "DOE" ∈ dept.columns)
    (hm : (r, v) ∈ (getCol dept "DOE").enum) (he : doeExcAt r v = some e) :
    e ∈ deptDoeExc dept := by
  have hcb : dept.columns.contains "DOE" = true := by simpa using hc
  unfold deptDoeExc
  rw [if_pos hcb]
  exact List.mem_filterMap.mpr ⟨(r, v), hm, he⟩

lemma mem_deptExceptions_of_doe {dept : DataFrame} {e : Exc}
    (hde : dfEmpty dept = false) (h : e ∈ deptDoeExc dept) :
    e ∈ deptExceptions dept :=
  mem_deptExceptions_iff.mpr ⟨hde, Or.inr (Or.inr (Or.inr h))⟩

lemma studExceptions_eq {stud dept : DataFrame}
    (hne : dfEmpty stud = false) (hc : "Department_Admission" ∈ stud.columns) :
    studExceptions stud dept = studMissingExc stud ++ studFkExc stud dept := by
  have hcb : stud.columns.contains "Department_Admission" = true := by simpa using hc
  unfold studExceptions
  rw [if_pos (by simp [hne, hcb, hc])]

lemma mem_studMissingExc_iff {stud : DataFrame} {e : Exc} :
    e ∈ studMissingExc stud ↔
      ∃ p ∈ (getCol stud "Department_Admission").enum,
        (pdIsna p.2 || pyStrip (pyStr p.2) == "") = true ∧
        e = { row_index := p.1, column := "Department_Admission", issue_type := "Missing",
              details := "Department_Admission is required" } := by
  unfold studMissingExc
  rw [List.mem_filterMap]
  constructor
  · rintro ⟨p, hp, hpe⟩
    by_cases hcond : (pdIsna p.2 || pyStrip (pyStr p.2) == "") = true
    · rw [if_pos hcond] at hpe
      exact ⟨p, hp, hcond, (Option.some.inj hpe).symm⟩
    · rw [if_neg hcond] at hpe
      cases hpe
  · rintro ⟨p, hp, hcond, rfl⟩
    exact ⟨p, hp, by rw [if_pos hcond]⟩

lemma mem_studFkExc_iff {stud dept : DataFrame} {e : Exc} :
    e ∈ studFkExc stud dept ↔
      ∃ p ∈ (getCol stud "Department_Admission").enum,
        (pyStrip (pyStr p.2) ≠ "" ∧ deptIds dept ≠ [] ∧
          pyStrip (pyStr p.2) ∉ deptIds dept) ∧
        e = { row_index := p.1, column := "Department_Admission",
              issue_type := "FK Violation",
              details := "Department_Admission=" ++ pyStrip (pyStr p.2)
                ++ " not in Department_Information.Department_ID" } := by
  unfold studFkExc
  rw [List.mem_filterMap]
  constructor
  · rintro ⟨p, hp, hpe⟩
    by_cases hcond : pyStrip (pyStr p.2) ≠ "" ∧ deptIds dept ≠ [] ∧
        pyStrip (pyStr p.2) ∉ deptIds dept
    · rw [if_pos hcond] at hpe
      exact ⟨p, hp, hcond, (Option.some.inj hpe).symm⟩
    · rw [if_neg hcond] at hpe
      cases hpe
  · rintro ⟨p, hp, hcond, rfl⟩
    exact ⟨p, hp, by rw [if_pos hcond]⟩

lemma mem_perfMarksExc_of {perf : DataFrame} {r : ℕ} {v : Value} {e : Exc}
    (hc : "Marks" ∈ perf.columns)
    (hm : (r, v) ∈ (getCol perf "Marks").enum) (he : marksExcAt r v = some e) :
    e ∈ perfMarksExc perf := by
  have hcb : perf.columns.contains "Marks" = true := by simpa using hc
  unfold perfMarksExc
  rw [if_pos hcb]
  exact List.mem_filterMap.mpr ⟨(r, v), hm, he⟩

lemma mem_perfEhExc_of {perf : DataFrame} {r : ℕ} {v : Value} {e : Exc}
    (hc : "Effort_Hours" ∈ perf.columns)
    (hm : (r, v) ∈ (getCol perf "Effort_Hours").enum) (he : ehExcAt r v = some e) :
    e ∈ perfEhExc perf := by
  have hcb : perf.columns.contains "Effort_Hours" = true := by simpa using hc
  unfold perfEhExc
  rw [if_pos hcb]
  exact List.mem_filterMap.mpr ⟨(r, v), hm, he⟩

lemma perfMissingExc_shape {perf : DataFrame} {e : Exc} (h : e ∈ perfMissingExc perf) :
    e.column = "(row)" ∧ e.issue_type = "Missing" ∧ e.row_index ∈ perfMissRows perf := by
  rcases List.mem_map.mp h with ⟨r, hr, he⟩
  cases he
  exact ⟨rfl, rfl, hr⟩

lemma perfMarksExc_shape {perf : DataFrame} {e : Exc} (h : e ∈ perfMarksExc perf) :
    e.column = "Marks" ∧
      (e.issue_type = "Out-of-Range" ∨ e.issue_type = "Invalid Type") ∧
      ∃ v, (e.row_index, v) ∈ (getCol perf "Marks").enum ∧
        marksExcAt e.row_index v = some e := by
  unfold perfMarksExc at h
  by_cases hcb : perf.columns.contains "Marks" = true
  · rw [if_pos hcb] at h
    rcases List.mem_filterMap.mp h with ⟨p, hp, hpe⟩
    rcases marksExcAt_some hpe with ⟨hri, hcol, hit⟩
    exact ⟨hcol, hit, p.2, by rw [hri]; exact hp, by rw [hri]; exact hpe⟩
  · rw [if_neg hcb] at h
    cases h

lemma perfEhExc_shape {perf : DataFrame} {e : Exc} (h : e ∈ perfEhExc perf) :
    e.column = "Effort_Hours" ∧
      (e.issue_type = "Out-of-Range" ∨ e.issue_type = "Invalid Type") ∧
      ∃ v, (e.row_index, v) ∈ (getCol perf "Effort_Hours").enum ∧
        ehExcAt e.row_index v = some e := by
  unfold perfEhExc at h
  by_cases hcb : perf.columns.contains "Effort_Hours" = true
  · rw [if_pos hcb] at h
    rcases List.mem_filterMap.mp h with ⟨p, hp, hpe⟩
    rcases ehExcAt_some hpe with ⟨hri, hcol, hit⟩
    exact ⟨hcol, hit, p.2, by rw [hri]; exact hp, by rw [hri]; exact hpe⟩
  · rw [if_neg hcb] at h
    cases h

lemma perfDupPairExc_shape {perf : DataFrame} {e : Exc} (h : e ∈ perfDupPairExc perf) :
    e.column = "Student_ID,Paper_ID" ∧ e.issue_type = "Duplicate Pair" := by
  unfold perfDupPairExc at h
  by_cases hcb : (perf.columns.contains "Student_ID" && perf.columns.contains "Paper_ID") = true
  · rw [if_pos hcb] at h
    rcases List.mem_map.mp h with ⟨p, _, he⟩
    cases he
    exact ⟨rfl, rfl⟩
  · rw [if_neg hcb] at h
    cases h

lemma mem_perfExceptions_iff {perf : DataFrame} {e : Exc} :
    e ∈ perfExceptions perf ↔ dfEmpty perf = false ∧
      (e ∈ perfMissingExc perf ∨ e ∈ perfMarksExc perf ∨
        e ∈ perfEhExc perf ∨ e ∈ perfDupPairExc perf) := by
  unfold perfExceptions
  rcases hde : dfEmpty perf with _ | _
  · simp [List.mem_append, or_assoc]
  · simp

lemma mem_perfDiscard_iff {perf : DataFrame} {r : ℕ} :
    r ∈ perfDiscard perf ↔ dfEmpty perf = false ∧
      (r ∈ perfMissRows perf ∨ r ∈ perfMarksDiscard perf ∨ r ∈ perfEhDiscard perf) := by
  unfold perfDiscard
  rcases hde : dfEmpty perf with _ | _
  · simp [Finset.mem_union, or_assoc]
  · simp

lemma perfMissRows_lt {perf : DataFrame} {r : ℕ} (h : r ∈ perfMissRows perf) :
    r < perf.rows.length := by
  rcases List.mem_map.mp h with ⟨p, hp, he⟩
  rcases List.mem_filter.mp hp with ⟨hpe, _⟩
  exact he ▸ mem_enum_fst_lt hpe

lemma perfMarksDiscard_lt {perf : DataFrame} {r : ℕ} (h : r ∈ perfMarksDiscard perf) :
    r < perf.rows.length := by
  rcases List.mem_map.mp h with ⟨e, he, hre⟩
  rcases perfMarksExc_shape he with ⟨_, _, v, hv, _⟩
  exact hre ▸ lt_of_lt_of_le (mem_enum_fst_lt hv) (getCol_length_le perf "Marks")

lemma perfEhDiscard_lt {perf : DataFrame} {r : ℕ} (h : r ∈ perfEhDiscard perf) :
    r < perf.rows.length := by
  rcases List.mem_map.mp h with ⟨e, he, hre⟩
  rcases perfEhExc_shape he with ⟨_, _, v, hv, _⟩
  exact hre ▸ lt_of_lt_of_le (mem_enum_fst_lt hv) (getCol_length_le perf "Effort_Hours")

lemma perfDiscard_lt {perf : DataFrame} {r : ℕ} (h : r ∈ perfDiscard perf) :
    r < perf.rows.length := by
  rcases (mem_perfDiscard_iff.mp h).2 with h1 | h1 | h1
  · exact perfMissRows_lt h1
  · exact perfMarksDiscard_lt h1
  · exact perfEhDiscard_lt h1

lemma mem_perfDiscardSorted_iff {perf : DataFrame} {r : ℕ} :
    r ∈ perfDiscardSorted perf ↔ r ∈ perfDiscard perf := by
  unfold perfDiscardSorted perfDiscard
  rcases hde : dfEmpty perf with _ | _
  · simp [(List.perm_insertionSort _ _).mem_iff, List.mem_dedup, List.mem_append, or_assoc]
  · simp

lemma perfClean_rows (perf : DataFrame) :
    (perfClean perf).rows
      = (perf.rows.enum.filter (fun p => p.1 ∉ perfDiscard perf)).map Prod.snd := by
  unfold perfClean dropRows
  refine congrArg _ (List.filter_congr ?_)
  intro p _
  by_cases hp : p.1 ∈ perfDiscard perf
  · have hs : p.1 ∈ perfDiscardSorted perf := mem_perfDiscardSorted_iff.mpr hp
    simp [hp, hs]
  · have hs : p.1 ∉ perfDiscardSorted perf := fun hc => hp (mem_perfDiscardSorted_iff.mp hc)
    simp [hp, hs]

lemma length_filter_range_not_mem :
    ∀ (n : ℕ) (d : Finset ℕ), (∀ i ∈ d, i < n) →
      ((List.range n).filter (fun i => i ∉ d)).length + d.card = n := by
  intro n
  induction n with
  | zero =>
      intro d hd
      have : d = ∅ := Finset.eq_empty_iff_forall_not_mem.mpr
        (fun i hi => Nat.not_lt_zero i (hd i hi))
      simp [this]
  | succ n ih =>
      intro d hd
      have hd' : ∀ i ∈ d.erase n, i < n := by
        intro i hi
        rcases Finset.mem_erase.mp hi with ⟨hne, hmem⟩
        exact lt_of_le_of_ne (Nat.lt_succ_iff.mp (hd i hmem)) hne
      have hcongr : (List.range n).filter (fun i => i ∉ d)
          = (List.range n).filter (fun i => i ∉ d.erase n) := by
        refine List.filter_congr ?_
        intro i hi
        have hin : i < n := List.mem_range.mp hi
        by_cases hmem : i ∈ d
        · have : i ∈ d.erase n := Finset.mem_erase.mpr ⟨Nat.ne_of_lt hin, hmem⟩
          simp [hmem, this]
        · have : i ∉ d.erase n := fun hc => hmem (Finset.mem_of_mem_erase hc)
          simp [hmem, this]
      rw [List.range_succ, List.filter_append, List.length_append]
      by_cases hn : n ∈ d
      · have hnil : ([n].filter (fun i => i ∉ d)).length = 0 := by simp [hn]
        rw [hnil, hcongr]
        have hIH := ih (d.erase n) hd'
        have hcard : (d.erase n).card + 1 = d.card := Finset.card_erase_add_one hn
        omega
      · have hone : ([n].filter (fun i => i ∉ d)).length = 1 := by simp [hn]
        rw [hone]
        have hIH := ih d (fun i hi =>
          hd' i (Finset.mem_erase.mpr ⟨fun he => hn (he ▸ hi), hi⟩))
        omega

lemma length_filter_zip_fst {α β : Type} (q : α → Bool) :
    ∀ (as : List α) (bs : List β), as.length = bs.length →
      ((as.zip bs).filter (fun p => q p.1)).length = (as.filter q).length := by
  intro as
  induction as with
  | nil => intro bs _; simp
  | cons a as ih =>
      intro bs hb
      rcases bs with _ | ⟨b, bs⟩
      · simp at hb
      · rw [List.zip_cons_cons, List.filter_cons, List.filter_cons]
        have hlen : as.length = bs.length := by simpa using hb
        rcases hq : q a with _ | _ <;> simp [hq, ih bs hlen]

lemma perfClean_length (perf : DataFrame) :
    (perfClean perf).rows.length = perf.rows.length - (perfDiscard perf).card := by
  rw [perfClean_rows, List.length_map]
  have hz : perf.rows.enum = (List.range perf.rows.length).zip perf.rows :=
    List.enum_eq_zip_range perf.rows
  rw [hz]
  rw [length_filter_zip_fst (fun i => decide (i ∉ perfDiscard perf)) _ _
    (by simp [List.length_range])]
  have := length_filter_range_not_mem perf.rows.length (perfDiscard perf)
    (fun i hi => perfDiscard_lt hi)
  omega

lemma deptDoeExc_nil {dept : DataFrame} (h : "DOE" ∉ dept.columns) :
    deptDoeExc dept = [] := by
  unfold deptDoeExc
  rw [if_neg (by simpa using h)]

lemma deptDupKeyExc_nil {dept : DataFrame} (h : "Department_ID" ∉ dept.columns) :
    deptDupKeyExc dept = [] := by
  unfold deptDupKeyExc
  rw [if_neg (by simpa using h)]

lemma deptDupNameExc_nil {dept : DataFrame} (h : "Department_Name" ∉ dept.columns) :
    deptDupNameExc dept = [] := by
  unfold deptDupNameExc
  rw [if_neg (by simpa using h)]

lemma perfMarksExc_nil {perf : DataFrame} (h : "Marks" ∉ perf.columns) :
    perfMarksExc perf = [] := by
  unfold perfMarksExc
  rw [if_neg (by simpa using h)]

lemma perfEhExc_nil {perf : DataFrame} (h : "Effort_Hours" ∉ perf.columns) :
    perfEhExc perf = [] := by
  unfold perfEhExc
  rw [if_neg (by simpa using h)]

lemma perfDupPairExc_nil {perf : DataFrame}
    (h : "Student_ID" ∉ perf.columns ∨ "Paper_ID" ∉ perf.columns) :
    perfDupPairExc perf = [] := by
  unfold perfDupPairExc
  rcases h with h | h <;> rw [if_neg (by simp [h])]

lemma studExceptions_nil {stud dept : DataFrame}
    (h : "Department_Admission" ∉ stud.columns) :
    studExceptions stud dept = [] := by
  unfold studExceptions
  rw [if_neg (by simp [h])]

lemma mem_of_indexOf?_some {l : List String} {c : String} {i : ℕ}
    (h : l.indexOf? c = some i) : c ∈ l := by
  induction l generalizing i with
  | nil => cases h
  | cons x xs ih =>
      rw [List.indexOf?_cons] at h
      by_cases hx : (x == c) = true
      · have hxc : x = c := by simpa using hx
        exact List.mem_cons.mpr (Or.inl hxc.symm)
      · rw [if_neg hx] at h
        rcases Option.map_eq_some'.mp h with ⟨j, hj, _⟩
        exact List.mem_cons.mpr (Or.inr (ih hj))

lemma cleaned_cell_origin {perf : DataFrame} {c : String} {v : Value}
    (hc : c ∈ perf.columns) (hv : v ∈ getCol (perfClean perf) c) :
    ∃ r, (r, v) ∈ (getCol perf c).enum ∧ r ∉ perfDiscard perf ∧ dfEmpty perf = false := by
  rcases exists_indexOf?_of_mem hc with ⟨i, hidx⟩
  have hidx2 : (perfClean perf).columns.indexOf? c = some i := hidx
  rw [getCol_eq hidx2] at hv
  rcases List.mem_map.mp hv with ⟨row, hrow, hrv⟩
  rw [perfClean_rows] at hrow
  rcases List.mem_map.mp hrow with ⟨p, hp, hps⟩
  rcases List.mem_filter.mp hp with ⟨hpe, hpd⟩
  have hnd : p.1 ∉ perfDiscard perf := by simpa using hpd
  have hde : dfEmpty perf = false := by
    refine dfEmpty_false_of ?_ (List.ne_nil_of_mem hc)
    have hlt := mem_enum_fst_lt hpe
    exact List.length_pos.mp (by omega)
  have h2 : (p.1, p.2.getD i Value.none) ∈
      (perf.rows.map (fun row => row.getD i Value.none)).enum :=
    mem_enum_map (fun row => row.getD i Value.none) hpe
  rw [hps, hrv] at h2
  rw [getCol_eq hidx]
  exact ⟨p.1, h2, hnd, hde⟩

/-! The claims. -/

/-- C1: the cleaned Performance Row Set consists of exactly the rows of
the original whose original index is not in the discard set, kept in their
original relative order under a fresh contiguous index; its row count is
the original count minus the size of the discard set; the retained
original indices are strictly increasing and none of them is discarded. -/
theorem cleaner_exact_complement (perf : DataFrame) :
    (perfClean perf).rows
        = (perf.rows.enum.filter (fun p => p.1 ∉ perfDiscard perf)).map Prod.snd
    ∧ (perfClean perf).rows.length = perf.rows.length - (perfDiscard perf).card
    ∧ List.Sorted (fun a b => a < b)
        ((perf.rows.enum.filter (fun p => p.1 ∉ perfDiscard perf)).map Prod.fst)
    ∧ ∀ i ∈ perfDiscard perf,
        ∀ p ∈ perf.rows.enum.filter (fun p => p.1 ∉ perfDiscard perf), p.1 ≠ i := by
  refine ⟨perfClean_rows perf, perfClean_length perf, ?_, ?_⟩
  · have hsub :
        ((perf.rows.enum.filter (fun p => p.1 ∉ perfDiscard perf)).map Prod.fst).Sublist
          (perf.rows.enum.map Prod.fst) :=
      List.Sublist.map Prod.fst (List.filter_sublist _)
    rw [List.enum_map_fst] at hsub
    exact List.Pairwise.sublist hsub (List.pairwise_lt_range _)
  · intro i hi p hp hpi
    have hkeep := (List.mem_filter.mp hp).2
    rw [hpi] at hkeep
    simp [hi] at hkeep

/-- Witness for the cleaner theorem on a concrete mixed table: row 0 is
discarded and no surviving entry carries original index 0. -/
theorem cleaner_exact_complement_witness :
    0 ∈ perfDiscard perfMixed ∧
      ∀ p ∈ perfMixed.rows.enum.filter (fun p => p.1 ∉ perfDiscard perfMixed), p.1 ≠ 0 :=
  ⟨by decide, (cleaner_exact_complement perfMixed).2.2.2 0 (by decide)⟩

/-- C2: Duplicate Pair exceptions never contribute to the discard set:
every discarded row index carries an exception of a different kind, and if
every recorded exception is a Duplicate Pair then the discard set is empty
and the cleaned table has exactly the input row count. -/
theorem dup_pair_never_discards (perf : DataFrame) :
    (∀ r ∈ perfDiscard perf, ∃ e ∈ perfExceptions perf,
        e.row_index = r ∧ e.issue_type ≠ "Duplicate Pair")
    ∧ ((∀ e ∈ perfExceptions perf, e.issue_type = "Duplicate Pair") →
        perfDiscard perf = ∅ ∧ (perfClean perf).rows.length = perf.rows.length) := by
  have hmain : ∀ r ∈ perfDiscard perf, ∃ e ∈ perfExceptions perf,
      e.row_index = r ∧ e.issue_type ≠ "Duplicate Pair" := by
    intro r hr
    rcases mem_perfDiscard_iff.mp hr with ⟨hde, hcase⟩
    rcases hcase with hmiss | hmk | heh
    · refine ⟨{ row_index := r, column := "(row)", issue_type := "Missing",
                details := "Missing values in row" }, ?_, rfl, ?_⟩
      · exact mem_perfExceptions_iff.mpr ⟨hde, Or.inl (List.mem_map.mpr ⟨r, hmiss, rfl⟩)⟩
      · show ("Missing" : String) ≠ "Duplicate Pair"
        decide
    · rcases List.mem_map.mp hmk with ⟨e, he, hre⟩
      refine ⟨e, mem_perfExceptions_iff.mpr ⟨hde, Or.inr (Or.inl he)⟩, hre, ?_⟩
      rcases (perfMarksExc_shape he).2.1 with h1 | h1 <;> rw [h1] <;> decide
    · rcases List.mem_map.mp heh with ⟨e, he, hre⟩
      refine ⟨e, mem_perfExceptions_iff.mpr ⟨hde, Or.inr (Or.inr (Or.inl he))⟩, hre, ?_⟩
      rcases (perfEhExc_shape he).2.1 with h1 | h1 <;> rw [h1] <;> decide
  refine ⟨hmain, fun hall => ?_⟩
  have hempty : perfDiscard perf = ∅ := by
    refine Finset.eq_empty_iff_forall_not_mem.mpr (fun r hr => ?_)
    rcases hmain r hr with ⟨e, he, _, hne⟩
    exact hne (hall e he)
  refine ⟨hempty, ?_⟩
  rw [perfClean_length, hempty]
  simp

/-- Witness: a table whose only violation is one duplicated pair reports
only Duplicate Pair exceptions, discards nothing, and keeps both rows. -/
theorem dup_pair_never_discards_witness :
    (∀ e ∈ perfExceptions perfDupOnly, e.issue_type = "Duplicate Pair")
    ∧ perfDiscard perfDupOnly = ∅
    ∧ (perfClean perfDupOnly).rows.length = perfDupOnly.rows.length :=
  ⟨by decide, (dup_pair_never_discards perfDupOnly).2 (by decide)⟩

/-- C7 counterexample: for a table whose only violation is a duplicated
pair the discard set is empty, so the cleaned table has as many rows as
the input and is not a strict subset by row count. -/
theorem cleaned_not_always_strict_subset :
    ¬ ((perfClean perfDupOnly).rows.length < perfDupOnly.rows.length) := by decide

/-- C7 amended: the cleaned table never has more rows than the input and
has strictly fewer rows exactly when the discard set is nonempty (in
particular, with an empty discard set the row count is unchanged); the
column list is unchanged; and no discarded original index survives the
filter. -/
theorem cleaned_subset_props (perf : DataFrame) :
    (perfClean perf).rows.length ≤ perf.rows.length
    ∧ ((perfClean perf).rows.length < perf.rows.length ↔ (perfDiscard perf).Nonempty)
    ∧ (perfClean perf).columns = perf.columns
    ∧ ∀ i ∈ perfDiscard perf,
        ∀ p ∈ perf.rows.enum.filter (fun p => p.1 ∉ perfDiscard perf), p.1 ≠ i := by
  refine ⟨?_, ⟨?_, ?_⟩, rfl, ?_⟩
  · rw [perfClean_length]
    omega
  · intro hlt
    rw [perfClean_length] at hlt
    rcases Finset.eq_empty_or_nonempty (perfDiscard perf) with he | hne
    · rw [he] at hlt
      simp at hlt
    · exact hne
  · rintro ⟨i, hi⟩
    have hlt : i < perf.rows.length := perfDiscard_lt hi
    have hcard : 0 < (perfDiscard perf).card := Finset.card_pos.mpr ⟨i, hi⟩
    rw [perfClean_length]
    omega
  · intro i hi p hp hpi
    have hkeep := (List.mem_filter.mp hp).2
    rw [hpi] at hkeep
    simp [hi] at hkeep

/-- Witness: a table with a nonempty discard set is cleaned to strictly
fewer rows. -/
theorem cleaned_subset_props_witness :
    (perfClean perfMixed).rows.length < perfMixed.rows.length :=
  (cleaned_subset_props perfMixed).2.1.mpr (by decide)

/-- C3: when the Marks and Effort_Hours columns are present, every Marks
cell of the cleaned Performance table converts to a finite float in the
inclusive range 0 to 100, and every Effort_Hours cell converts to a
non-negative integer with no fractional part. -/
theorem cleaned_rows_in_range (perf : DataFrame)
    (hm : "Marks" ∈ perf.columns) (he : "Effort_Hours" ∈ perf.columns) :
    (∀ v ∈ getCol (perfClean perf) "Marks",
        ∃ q, pyFloat v = some (FloatVal.fin q) ∧ 0 ≤ q ∧ q ≤ 100)
    ∧ ∀ v ∈ getCol (perfClean perf) "Effort_Hours",
        ∃ i, pyInt v = some i ∧ 0 ≤ i ∧ (isPyFloat v = true → floatIsInteger v = true) := by
  constructor
  · intro v hv
    rcases cleaned_cell_origin hm hv with ⟨r, hrv, hnd, hde⟩
    rcases hex : marksExcAt r v with _ | e
    · exact marksExcAt_none hex
    · exfalso
      apply hnd
      refine mem_perfDiscard_iff.mpr ⟨hde, Or.inr (Or.inl ?_)⟩
      exact List.mem_map.mpr ⟨e, mem_perfMarksExc_of hm hrv hex, (marksExcAt_some hex).1⟩
  · intro v hv
    rcases cleaned_cell_origin he hv with ⟨r, hrv, hnd, hde⟩
    rcases hex : ehExcAt r v with _ | e
    · exact ehExcAt_none hex
    · exfalso
      apply hnd
      refine mem_perfDiscard_iff.mpr ⟨hde, Or.inr (Or.inr ?_)⟩
      exact List.mem_map.mpr ⟨e, mem_perfEhExc_of he hrv hex, (ehExcAt_some hex).1⟩

/-- Witness: the one surviving Marks cell of the mixed table is a finite
in-range float. -/
theorem cleaned_rows_in_range_witness :
    ∃ q, pyFloat (Value.int 50) = some (FloatVal.fin q) ∧ 0 ≤ q ∧ q ≤ 100 :=
  (cleaned_rows_in_range perfMixed (by decide) (by decide)).1 (Value.int 50) (by decide)

/-- C5: a Marks value on which the float conversion fails always yields an
Invalid Type exception on column Marks for that row, and the row index
joins the discard set; the failure is absorbed by the rule and the value
is never treated as passing. -/
theorem marks_unparseable_invalid_type (perf : DataFrame) (r : ℕ) (v : Value)
    (hc : "Marks" ∈ perf.columns) (hm : (r, v) ∈ (getCol perf "Marks").enum)
    (hf : pyFloat v = Option.none) :
    (∃ e ∈ perfExceptions perf, e.row_index = r ∧ e.column = "Marks" ∧
        e.issue_type = "Invalid Type")
    ∧ r ∈ perfDiscard perf := by
  have hde : dfEmpty perf = false := dfEmpty_false_of_enum hc hm
  have hexc : marksExcAt r v = some
      { row_index := r, column := "Marks", issue_type := "Invalid Type",
        details := "Marks=" ++ pyStr v ++ " not numeric" } := by
    unfold marksExcAt
    rw [hf]
  have hmem := mem_perfMarksExc_of hc hm hexc
  refine ⟨⟨_, mem_perfExceptions_iff.mpr ⟨hde, Or.inr (Or.inl hmem)⟩, rfl, rfl, rfl⟩, ?_⟩
  exact mem_perfDiscard_iff.mpr ⟨hde, Or.inr (Or.inl (List.mem_map.mpr ⟨_, hmem, rfl⟩))⟩

/-- Witness: the Marks value abc in the mixed table is flagged Invalid
Type and its row 1 is discarded. -/
theorem marks_unparseable_invalid_type_witness :
    (∃ e ∈ perfExceptions perfMixed, e.row_index = 1 ∧ e.column = "Marks" ∧
        e.issue_type = "Invalid Type")
    ∧ 1 ∈ perfDiscard perfMixed :=
  marks_unparseable_invalid_type perfMixed 1 (Value.str "abc")
    (by decide) (by decide) (by decide)

/-- C10: a NaN Marks value yields the row-level Missing exception and an
Out-of-Range exception on Marks (every Marks exception for that row is
Out-of-Range, never Invalid Type), and the row index enters the discard
set through both the missing-row rule and the Marks rule. -/
theorem marks_nan_missing_and_out_of_range (perf : DataFrame) (r mi : ℕ)
    (row : List Value)
    (hidx : perf.columns.indexOf? "Marks" = some mi)
    (hrow : (r, row) ∈ perf.rows.enum)
    (hnan : row.getD mi Value.none = Value.nan) :
    (∃ e ∈ perfExceptions perf, e.row_index = r ∧ e.column = "(row)" ∧
        e.issue_type = "Missing")
    ∧ (∃ e ∈ perfExceptions perf, e.row_index = r ∧ e.column = "Marks" ∧
        e.issue_type = "Out-of-Range")
    ∧ (∀ e ∈ perfExceptions perf, e.row_index = r → e.column = "Marks" →
        e.issue_type = "Out-of-Range")
    ∧ r ∈ perfMissRows perf ∧ r ∈ perfMarksDiscard perf ∧ r ∈ perfDiscard perf := by
  have hcm : "Marks" ∈ perf.columns := mem_of_indexOf?_some hidx
  have hde : dfEmpty perf = false := by
    refine dfEmpty_false_of ?_ (List.ne_nil_of_mem hcm)
    have hlt := mem_enum_fst_lt hrow
    exact List.length_pos.mp (by omega)
  have hnanmem : Value.nan ∈ row := by
    rw [List.getD_eq_getElem?_getD] at hnan
    rcases hq : row[mi]? with _ | a
    · rw [hq] at hnan
      cases hnan
    · rw [hq] at hnan
      simp only [Option.getD_some] at hnan
      exact hnan ▸ List.getElem?_mem hq
  have hany : row.any pdIsna = true := List.any_eq_true.mpr ⟨Value.nan, hnanmem, rfl⟩
  have hmissr : r ∈ perfMissRows perf :=
    List.mem_map.mpr ⟨(r, row), List.mem_filter.mpr ⟨hrow, hany⟩, rfl⟩
  have hnanEnum : (r, Value.nan) ∈ (getCol perf "Marks").enum := by
    have h2 : (r, row.getD mi Value.none) ∈
        (perf.rows.map (fun row => row.getD mi Value.none)).enum :=
      mem_enum_map (fun row => row.getD mi Value.none) hrow
    rw [hnan] at h2
    rw [getCol_eq hidx]
    exact h2
  have hoor : marksExcAt r Value.nan = some
      { row_index := r, column := "Marks", issue_type := "Out-of-Range",
        details := "Marks=" ++ pyStr Value.nan ++ " not in [0,100]" } := rfl
  have hmm := mem_perfMarksExc_of hcm hnanEnum hoor
  refine ⟨⟨_, mem_perfExceptions_iff.mpr ⟨hde, Or.inl (List.mem_map.mpr ⟨r, hmissr, rfl⟩)⟩,
      rfl, rfl, rfl⟩,
    ⟨_, mem_perfExceptions_iff.mpr ⟨hde, Or.inr (Or.inl hmm)⟩, rfl, rfl, rfl⟩,
    ?_, hmissr, List.mem_map.mpr ⟨_, hmm, rfl⟩,
    mem_perfDiscard_iff.mpr ⟨hde, Or.inl hmissr⟩⟩
  intro e hee her hec
  rcases (mem_perfExceptions_iff.mp hee).2 with h1 | h1 | h1 | h1
  · have hcol := (perfMissingExc_shape h1).1
    rw [hcol] at hec
    exact absurd hec (by decide)
  · rcases perfMarksExc_shape h1 with ⟨_, _, v2, hv2, hexc2⟩
    rw [her] at hv2 hexc2
    have hveq : v2 = Value.nan := enum_fst_inj hv2 hnanEnum
    rw [hveq] at hexc2
    have hee2 := Option.some.inj (hoor.symm.trans hexc2)
    rw [← hee2]
  · have hcol := (perfEhExc_shape h1).1
    rw [hcol] at hec
    exact absurd hec (by decide)
  · have hcol := (perfDupPairExc_shape h1).1
    rw [hcol] at hec
    exact absurd hec (by decide)

/-- C4 counterexample: a null DOE value is recorded as Out-of-Range, not
Invalid Type: the isna test short-circuits before the integer conversion
could fail, so no Invalid Type exception appears for a null. -/
theorem doe_null_not_invalid_type :
    (∀ e ∈ deptExceptions deptDoeNull, e.issue_type ≠ "Invalid Type")
    ∧ ∃ e ∈ deptExceptions deptDoeNull,
        e.row_index = 0 ∧ e.column = "DOE" ∧ e.issue_type = "Out-of-Range" := by decide

/-- C4 amended: with DOE present, a null value is recorded as Out-of-Range
(the isna test short-circuits before any conversion is attempted); a
non-null value whose integer conversion fails is recorded as Invalid Type;
a non-null value converting to an integer below 1900 is recorded as
Out-of-Range. -/
theorem doe_rule_classification (dept : DataFrame) (r : ℕ) (v : Value)
    (hc : "DOE" ∈ dept.columns) (hm : (r, v) ∈ (getCol dept "DOE").enum) :
    (pdIsna v = true →
      ∃ e ∈ deptExceptions dept, e.row_index = r ∧ e.column = "DOE" ∧
        e.issue_type = "Out-of-Range")
    ∧ (pdIsna v = false → pyInt v = Option.none →
      ∃ e ∈ deptExceptions dept, e.row_index = r ∧ e.column = "DOE" ∧
        e.issue_type = "Invalid Type")
    ∧ ∀ n : Int, pdIsna v = false → pyInt v = some n → n < 1900 →
      ∃ e ∈ deptExceptions dept, e.row_index = r ∧ e.column = "DOE" ∧
        e.issue_type = "Out-of-Range" := by
  have hde : dfEmpty dept = false := dfEmpty_false_of_enum hc hm
  refine ⟨fun hna => ?_, fun hna hint => ?_, fun n hna hint hlt => ?_⟩
  · have hexc : doeExcAt r v = some
        { row_index := r, column := "DOE", issue_type := "Out-of-Range",
          details := "DOE=" ++ pyStr v ++ " (must be >=1900)" } := by
      unfold doeExcAt
      rw [if_pos hna]
    exact ⟨_, mem_deptExceptions_of_doe hde (mem_deptDoeExc_of hc hm hexc), rfl, rfl, rfl⟩
  · have hexc : doeExcAt r v = some
        { row_index := r, column := "DOE", issue_type := "Invalid Type",
          details := "DOE=" ++ pyStr v ++ " (not integer)" } := by
      unfold doeExcAt
      rw [if_neg (by simp [hna]), hint]
    exact ⟨_, mem_deptExceptions_of_doe hde (mem_deptDoeExc_of hc hm hexc), rfl, rfl, rfl⟩
  · have hexc : doeExcAt r v = some
        { row_index := r, column := "DOE", issue_type := "Out-of-Range",
          details := "DOE=" ++ pyStr v ++ " (must be >=1900)" } := by
      unfold doeExcAt
      rw [if_neg (by simp [hna]), hint]
      simp [hlt]
    exact ⟨_, mem_deptExceptions_of_doe hde (mem_deptDoeExc_of hc hm hexc), rfl, rfl, rfl⟩

/-- Witness: the DOE values abc and 1850 are classified Invalid Type and
Out-of-Range respectively. -/
theorem doe_rule_classification_witness :
    (∃ e ∈ deptExceptions deptDoeAbc, e.row_index = 0 ∧ e.column = "DOE" ∧
        e.issue_type = "Invalid Type")
    ∧ ∃ e ∈ deptExceptions deptDoeAbc, e.row_index = 1 ∧ e.column = "DOE" ∧
        e.issue_type = "Out-of-Range" :=
  ⟨(doe_rule_classification deptDoeAbc 0 (Value.str "abc") (by decide) (by decide)).2.1
      (by decide) (by decide),
   (doe_rule_classification deptDoeAbc 1 (Value.int 1850) (by decide) (by decide)).2.2 1850
      (by decide) (by decide) (by decide)⟩

/-- C8: a rule whose required column is absent from the input is skipped
silently: the entity report contains no exception from that rule, and the
engine raises no error (the report functions stay total). -/
theorem missing_columns_skip_rules (dept perf stud deptB : DataFrame) :
    ("DOE" ∉ dept.columns → ∀ e ∈ deptExceptions dept, e.column ≠ "DOE")
    ∧ ("Department_ID" ∉ dept.columns →
        ∀ e ∈ deptExceptions dept, e.issue_type ≠ "Duplicate Key")
    ∧ ("Department_Name" ∉ dept.columns →
        ∀ e ∈ deptExceptions dept, e.issue_type ≠ "Duplicate Value")
    ∧ ("Marks" ∉ perf.columns → ∀ e ∈ perfExceptions perf, e.column ≠ "Marks")
    ∧ ("Effort_Hours" ∉ perf.columns →
        ∀ e ∈ perfExceptions perf, e.column ≠ "Effort_Hours")
    ∧ (("Student_ID" ∉ perf.columns ∨ "Paper_ID" ∉ perf.columns) →
        ∀ e ∈ perfExceptions perf, e.issue_type ≠ "Duplicate Pair")
    ∧ ("Department_Admission" ∉ stud.columns → studExceptions stud deptB = []) := by
  refine ⟨?_, ?_, ?_, ?_, ?_, ?_, fun h => studExceptions_nil h⟩
  · intro h e he hcol
    rcases (mem_deptExceptions_iff.mp he).2 with h1 | h1 | h1 | h1
    · exact h (hcol ▸ (deptMissingExc_shape h1).2)
    · have hc2 := (deptDupKeyExc_shape h1).1
      rw [hcol] at hc2
      exact absurd hc2 (by decide)
    · have hc2 := (deptDupNameExc_shape h1).1
      rw [hcol] at hc2
      exact absurd hc2 (by decide)
    · rw [deptDoeExc_nil h] at h1
      cases h1
  · intro h e he hit
    rcases (mem_deptExceptions_iff.mp he).2 with h1 | h1 | h1 | h1
    · have hc2 := (deptMissingExc_shape h1).1
      rw [hit] at hc2
      exact absurd hc2 (by decide)
    · rw [deptDupKeyExc_nil h] at h1
      cases h1
    · have hc2 := (deptDupNameExc_shape h1).2
      rw [hit] at hc2
      exact absurd hc2 (by decide)
    · rcases (deptDoeExc_shape h1).2 with hc2 | hc2 <;> rw [hit] at hc2 <;>
        exact absurd hc2 (by decide)
  · intro h e he hit
    rcases (mem_deptExceptions_iff.mp he).2 with h1 | h1 | h1 | h1
    · have hc2 := (deptMissingExc_shape h1).1
      rw [hit] at hc2
      exact absurd hc2 (by decide)
    · have hc2 := (deptDupKeyExc_shape h1).2
      rw [hit] at hc2
      exact absurd hc2 (by decide)
    · rw [deptDupNameExc_nil h] at h1
      cases h1
    · rcases (deptDoeExc_shape h1).2 with hc2 | hc2 <;> rw [hit] at hc2 <;>
        exact absurd hc2 (by decide)
  · intro h e he hcol
    rcases (mem_perfExceptions_iff.mp he).2 with h1 | h1 | h1 | h1
    · have hc2 := (perfMissingExc_shape h1).1
      rw [hcol] at hc2
      exact absurd hc2 (by decide)
    · rw [perfMarksExc_nil h] at h1
      cases h1
    · have hc2 := (perfEhExc_shape h1).1
      rw [hcol] at hc2
      exact absurd hc2 (by decide)
    · have hc2 := (perfDupPairExc_shape h1).1
      rw [hcol] at hc2
      exact absurd hc2 (by decide)
  · intro h e he hcol
    rcases (mem_perfExceptions_iff.mp he).2 with h1 | h1 | h1 | h1
    · have hc2 := (perfMissingExc_shape h1).1
      rw [hcol] at hc2
      exact absurd hc2 (by decide)
    · have hc2 := (perfMarksExc_shape h1).1
      rw [hcol] at hc2
      exact absurd hc2 (by decide)
    · rw [perfEhExc_nil h] at h1
      cases h1
    · have hc2 := (perfDupPairExc_shape h1).1
      rw [hcol] at hc2
      exact absurd hc2 (by decide)
  · intro h e he hit
    rcases (mem_perfExceptions_iff.mp he).2 with h1 | h1 | h1 | h1
    · have hc2 := (perfMissingExc_shape h1).2.1
      rw [hit] at hc2
      exact absurd hc2 (by decide)
    · rcases (perfMarksExc_shape h1).2.1 with hc2 | hc2 <;> rw [hit] at hc2 <;>
        exact absurd hc2 (by decide)
    · rcases (perfEhExc_shape h1).2.1 with hc2 | hc2 <;> rw [hit] at hc2 <;>
        exact absurd hc2 (by decide)
    · rw [perfDupPairExc_nil h] at h1
      cases h1

/-- Witness: entities lacking the guarded columns report nothing from the
skipped rules. -/
theorem missing_columns_skip_rules_witness :
    (∀ e ∈ deptExceptions deptNoCols, e.column ≠ "DOE")
    ∧ (∀ e ∈ perfExceptions perfNoCols, e.column ≠ "Marks")
    ∧ (∀ e ∈ perfExceptions perfNoCols, e.issue_type ≠ "Duplicate Pair")
    ∧ studExceptions studNoAdm deptKeys123 = [] :=
  ⟨(missing_columns_skip_rules deptNoCols perfNoCols studNoAdm deptKeys123).1 (by decide),
   (missing_columns_skip_rules deptNoCols perfNoCols studNoAdm deptKeys123).2.2.2.1
     (by decide),
   (missing_columns_skip_rules deptNoCols perfNoCols studNoAdm deptKeys123).2.2.2.2.2.1
     (Or.inr (by decide)),
   (missing_columns_skip_rules deptNoCols perfNoCols studNoAdm deptKeys123).2.2.2.2.2.2
     (by decide)⟩

/-- Witness: the NaN Marks row of the concrete table is discarded by both
the missing-row rule and the Marks rule. -/
theorem marks_nan_missing_and_out_of_range_witness :
    0 ∈ perfMissRows perfMarksNan ∧ 0 ∈ perfMarksDiscard perfMarksNan ∧
      0 ∈ perfDiscard perfMarksNan :=
  (marks_nan_missing_and_out_of_range perfMarksNan 0 2
    [Value.int 5, Value.int 9, Value.nan, Value.int 3]
    (by decide) (by decide) (by decide)).2.2.2

/-- C6: for a string-valued Department_Admission cell at row r, a Missing
exception at r is recorded exactly when the string strips to empty, and a
FK Violation exception at r is recorded exactly when the stripped string
is nonempty, the Department key set is nonempty, and the stripped string
is absent from the keys; in particular an empty string yields Missing and
never also a FK Violation for the same row. -/
theorem admission_string_missing_fk (stud dept : DataFrame) (r : ℕ) (s : String)
    (hc : "Department_Admission" ∈ stud.columns)
    (hm : (r, Value.str s) ∈ (getCol stud "Department_Admission").enum) :
    ((∃ e ∈ studExceptions stud dept, e.row_index = r ∧ e.issue_type = "Missing")
        ↔ pyStrip s = "")
    ∧ ((∃ e ∈ studExceptions stud dept, e.row_index = r ∧ e.issue_type = "FK Violation")
        ↔ pyStrip s ≠ "" ∧ deptIds dept ≠ [] ∧ pyStrip s ∉ deptIds dept) := by
  have hde : dfEmpty stud = false := dfEmpty_false_of_enum hc hm
  have heq := @studExceptions_eq stud dept hde hc
  constructor
  · constructor
    · rintro ⟨e, hee, her, hit⟩
      rw [heq] at hee
      rcases List.mem_append.mp hee with h1 | h1
      · rcases mem_studMissingExc_iff.mp h1 with ⟨p, hp, hcond, hrec⟩
        subst hrec
        have her2 : p.1 = r := her
        have hpm : (r, p.2) ∈ (getCol stud "Department_Admission").enum := by
          rw [← her2]
          exact hp
        have hv : p.2 = Value.str s := enum_fst_inj hpm hm
        rw [hv] at hcond
        simpa [pdIsna, pyStr] using hcond
      · rcases mem_studFkExc_iff.mp h1 with ⟨p, hp, hcond, hrec⟩
        subst hrec
        simp at hit
    · intro hstrip
      refine ⟨{ row_index := r, column := "Department_Admission", issue_type := "Missing",
                details := "Department_Admission is required" }, ?_, rfl, rfl⟩
      rw [heq]
      refine List.mem_append.mpr (Or.inl (mem_studMissingExc_iff.mpr
        ⟨(r, Value.str s), hm, ?_, rfl⟩))
      simp [pdIsna, pyStr, hstrip]
  · constructor
    · rintro ⟨e, hee, her, hit⟩
      rw [heq] at hee
      rcases List.mem_append.mp hee with h1 | h1
      · rcases mem_studMissingExc_iff.mp h1 with ⟨p, hp, hcond, hrec⟩
        subst hrec
        simp at hit
      · rcases mem_studFkExc_iff.mp h1 with ⟨p, hp, hcond, hrec⟩
        subst hrec
        have her2 : p.1 = r := her
        have hpm : (r, p.2) ∈ (getCol stud "Department_Admission").enum := by
          rw [← her2]
          exact hp
        have hv : p.2 = Value.str s := enum_fst_inj hpm hm
        rw [hv] at hcond
        simpa [pyStr] using hcond
    · rintro ⟨hne, hids, habs⟩
      refine ⟨{ row_index := r, column := "Department_Admission",
                issue_type := "FK Violation",
                details := "Department_Admission=" ++ pyStrip (pyStr (Value.str s))
                  ++ " not in Department_Information.Department_ID" }, ?_, rfl, rfl⟩
      rw [heq]
      refine List.mem_append.mpr (Or.inr (mem_studFkExc_iff.mpr
        ⟨(r, Value.str s), hm, ?_, rfl⟩))
      exact ⟨by simpa [pyStr] using hne, hids, by simpa [pyStr] using habs⟩

/-- Witness: an empty admission string yields a Missing exception and no
FK Violation for its row. -/
theorem admission_string_missing_fk_witness :
    (∃ e ∈ studExceptions studEmptyAdm deptKeys123,
        e.row_index = 0 ∧ e.issue_type = "Missing")
    ∧ ¬∃ e ∈ studExceptions studEmptyAdm deptKeys123,
        e.row_index = 0 ∧ e.issue_type = "FK Violation" :=
  ⟨(admission_string_missing_fk studEmptyAdm deptKeys123 0 ""
      (by decide) (by decide)).1.mpr (by decide),
   by decide⟩

/-- C9 counterexample: with the single Department key being the literal
string nan, a NaN admission value is reported Missing, but its stringified
form hits the key set, so no FK Violation is recorded even though the key
set is nonempty. -/
theorem null_admission_fk_suppressed :
    deptIds deptKeyNanStr ≠ []
    ∧ (∃ e ∈ studExceptions studNanAdm deptKeyNanStr, e.issue_type = "Missing")
    ∧ ¬∃ e ∈ studExceptions studNanAdm deptKeyNanStr,
        e.issue_type = "FK Violation" := by decide

/-- C9 amended: for a null Department_Admission value, when the key set is
nonempty and the stringified null value is absent from the keys, the
engine records both a Missing and a FK Violation exception for the row:
the null does not short-circuit the FK check the way an empty string does. -/
theorem null_admission_missing_and_fk (stud dept : DataFrame) (r : ℕ) (v : Value)
    (hc : "Department_Admission" ∈ stud.columns)
    (hm : (r, v) ∈ (getCol stud "Department_Admission").enum)
    (hna : pdIsna v = true) (hids : deptIds dept ≠ [])
    (habs : pyStrip (pyStr v) ∉ deptIds dept) :
    (∃ e ∈ studExceptions stud dept, e.row_index = r ∧ e.issue_type = "Missing")
    ∧ ∃ e ∈ studExceptions stud dept, e.row_index = r ∧ e.issue_type = "FK Violation" := by
  have hde : dfEmpty stud = false := dfEmpty_false_of_enum hc hm
  have heq := @studExceptions_eq stud dept hde hc
  have hne : pyStrip (pyStr v) ≠ "" := by
    rcases v with _ | _ | n | q | s
    · decide
    · decide
    · exact absurd hna (by simp [pdIsna])
    · exact absurd hna (by simp [pdIsna])
    · exact absurd hna (by simp [pdIsna])
  constructor
  · refine ⟨{ row_index := r, column := "Department_Admission", issue_type := "Missing",
              details := "Department_Admission is required" }, ?_, rfl, rfl⟩
    rw [heq]
    refine List.mem_append.mpr (Or.inl (mem_studMissingExc_iff.mpr ⟨(r, v), hm, ?_, rfl⟩))
    simp [hna]
  · refine ⟨{ row_index := r, column := "Department_Admission",
              issue_type := "FK Violation",
              details := "Department_Admission=" ++ pyStrip (pyStr v)
                ++ " not in Department_Information.Department_ID" }, ?_, rfl, rfl⟩
    rw [heq]
    exact List.mem_append.mpr (Or.inr (mem_studFkExc_iff.mpr
      ⟨(r, v), hm, ⟨hne, hids, habs⟩, rfl⟩))

/-- Witness: a NaN admission value against keys 1, 2, 3 yields both a
Missing and a FK Violation exception for row 0. -/
theorem null_admission_missing_and_fk_witness :
    (∃ e ∈ studExceptions studNanAdm deptKeys123,
        e.row_index = 0 ∧ e.issue_type = "Missing")
    ∧ ∃ e ∈ studExceptions studNanAdm deptKeys123,
        e.row_index = 0 ∧ e.issue_type = "FK Violation" :=
  null_admission_missing_and_fk studNanAdm deptKeys123 0 Value.nan
    (by decide) (by decide) (by decide) (by decide) (by decide)

end Etl
